import Mathlib

/-!
# Verification of `ol.TileQueue` (planetlabs/ol3, `src/ol/tilequeue.js`)

A shallow embedding of the bounded-concurrency tile-load scheduler
`ol.TileQueue` and of the indexed priority heap it inherits from
(`ol.structs.PriorityQueue`), together with proofs of the specified
properties.

Modelling conventions:
* A tile is identified by its key (`getKey()`), modelled as a `Nat`.
  A heap element (`[tile, src, tileCoord, resolution]` in the source)
  is therefore represented by the key of its tile, and the element-level
  priority function `priorityFunction_` becomes a function `Nat → Priority`.
* Tile states live in a shared pool `Pool : Nat → TileState`, so several
  scheduler instances can observe the same tiles, as in the repository's
  tests.
* The parallel, index-aligned arrays `elements_` / `priorities_` are
  modelled as a single list of (key, priority) pairs; `queuedElements_`
  is the list of queued keys.
* `DROP` is modelled as the `none` value of `Priority := Option Int`,
  a sentinel that no real (numeric) priority can equal.
* `dequeue` returns `none` on an empty heap; that `none` models the
  `EmptyQueueError` thrown by `ol.structs.PriorityQueue.dequeue`.
-/

/-- Tile load states, from `ol.TileState`
(IDLE, LOADING, LOADED, ERROR, EMPTY). -/
inductive TileState where
  | idle
  | loading
  | loaded
  | error
  | empty
deriving DecidableEq

/-- A priority is either a numeric value or the `DROP` sentinel
(`ol.structs.PriorityQueue.DROP`), modelled as `none`. -/
abbrev Priority := Option Int

/-- The `DROP` sentinel: "remove from queue, do not schedule". -/
def DROP : Priority := none

/-- The shared tile pool: state of the tile with each key. -/
def Pool := Nat → TileState

/-- Modelled from the spec: starting a load (`tile.load()`) transitions
the tile's state; completion signals likewise update the pool.  The state
of tile `k` is set to `s`, other tiles are unchanged. -/
def setTileState (pool : Pool) (k : Nat) (s : TileState) : Pool :=
  fun j => if j = k then s else pool j

/-- The state of one `ol.TileQueue` instance: the inherited
`ol.structs.PriorityQueue` storage (`heap` for the parallel
`elements_`/`priorities_` arrays, `queuedKeys` for `queuedElements_`,
`priorityFunction` for `priorityFunction_`) plus the scheduler fields of
`ol.TileQueue` (`listened` records which tiles have a registered change
listener; `tilesLoading`, `maxTotalLoading`, `maxNewLoads` as in the
constructor; `callbackCount` counts invocations of the caller-supplied
`tileChangeCallback_`). -/
structure TileQueue where
  heap : List (Nat × Int)
  queuedKeys : List Nat
  priorityFunction : Nat → Priority
  listened : List Nat
  tilesLoading : Int
  maxTotalLoading : Int
  maxNewLoads : Int
  callbackCount : Nat

/-- The `ol.TileQueue` constructor: empty queue, no loads outstanding,
default budget `maxTotalLoading_ = 16`, `maxNewLoads_ = 16`. -/
def mkTileQueue (pfn : Nat → Priority) : TileQueue :=
  { heap := []
    queuedKeys := []
    priorityFunction := pfn
    listened := []
    tilesLoading := 0
    maxTotalLoading := 16
    maxNewLoads := 16
    callbackCount := 0 }

/-- `getCount()` of the underlying priority queue: number of queued
elements. -/
def getCount (q : TileQueue) : Nat :=
  q.heap.length

/-- `ol.TileQueue.prototype.getTilesLoading`. -/
def getTilesLoading (q : TileQueue) : Int :=
  q.tilesLoading

/-- Modelled from the spec: sift-up of `ol.structs.PriorityQueue` (not in
the provided sources) — "appends to the end of the backing sequences and
sifts up to restore heap order".  `fuel` bounds the walk towards the root;
callers pass the heap size, which always suffices. -/
def siftUp (fuel : Nat) (h : List (Nat × Int)) (i : Nat) : List (Nat × Int) :=
  match fuel with
  | 0 => h
  | Nat.succ fuel =>
    if i = 0 then h
    else
      let parent := (i - 1) / 2
      match h[i]?, h[parent]? with
      | some ei, some ep =>
        if ei.2 < ep.2 then siftUp fuel ((h.set i ep).set parent ei) parent
        else h
      | _, _ => h

/-- Modelled from the spec: sift-down of `ol.structs.PriorityQueue` —
"sifts the new root down to restore heap order".  Swaps index `i` with its
smaller child while the heap order is violated; `fuel` bounds the walk. -/
def siftDown (fuel : Nat) (h : List (Nat × Int)) (i : Nat) : List (Nat × Int) :=
  match fuel with
  | 0 => h
  | Nat.succ fuel =>
    match h[i]? with
    | none => h
    | some ei =>
      let c1 :=
        match h[2 * i + 1]? with
        | some el => if el.2 < ei.2 then (2 * i + 1, el) else (i, ei)
        | none => (i, ei)
      let c2 :=
        match h[2 * i + 2]? with
        | some er => if er.2 < c1.2.2 then (2 * i + 2, er) else c1
        | none => c1
      if c2.1 = i then h
      else siftDown fuel ((h.set i c2.2).set c2.1 ei) c2.1

/-- Modelled from the spec: the root/last swap at the start of `dequeue` —
"swaps root with last element, shrinks the sequence by one".  Returns the
old root together with the shrunk sequence (last element moved to the
root), or `none` when the sequence is empty. -/
def swapPop (l : List (Nat × Int)) : Option ((Nat × Int) × List (Nat × Int)) :=
  match l with
  | [] => none
  | [a] => some (a, [])
  | a :: b :: rest => some (a, (b :: rest).getLastD a :: (b :: rest).dropLast)

/-- Modelled from the spec: `ol.structs.PriorityQueue.prototype.enqueue`
— "computes `key = keyFn(element)`.  If key already present among queued
elements, no-op.  Otherwise appends to the end of the backing sequences
and sifts up to restore heap order; registers key in the index map."  The
priority is computed by the current priority function; an element whose
priority is already `DROP` is not inserted (drop semantics). -/
def pqEnqueue (q : TileQueue) (k : Nat) : TileQueue :=
  if k ∈ q.queuedKeys then q
  else
    match q.priorityFunction k with
    | none => q
    | some p =>
      let h := q.heap ++ [(k, p)]
      { q with heap := siftUp h.length h (h.length - 1)
               queuedKeys := k :: q.queuedKeys }

/-- Modelled from the spec: `ol.structs.PriorityQueue.prototype.dequeue`
— "fails with `EmptyQueueError` if count is 0 [the `none` result].
Otherwise swaps root with last element, shrinks the sequence by one,
removes the old root's key from the index map, sifts the new root down to
restore heap order, and returns the removed (formerly root) element." -/
def dequeue (q : TileQueue) : Option (Nat × TileQueue) :=
  match swapPop q.heap with
  | none => none
  | some (e, rest) =>
    some (e.1, { q with heap := siftDown rest.length rest 0
                        queuedKeys := q.queuedKeys.erase e.1 })

theorem length_siftUp (fuel : Nat) (h : List (Nat × Int)) (i : Nat) :
    (siftUp fuel h i).length = h.length := by
  induction fuel generalizing h i with
  | zero => rfl
  | succ fuel ih =>
    unfold siftUp
    split
    · rfl
    · dsimp only
      repeat' split
      all_goals first
        | rfl
        | (rw [ih]; simp)

theorem length_siftDown (fuel : Nat) (h : List (Nat × Int)) (i : Nat) :
    (siftDown fuel h i).length = h.length := by
  induction fuel generalizing h i with
  | zero => rfl
  | succ fuel ih =>
    unfold siftDown
    split
    · rfl
    · dsimp only
      repeat' split
      all_goals first
        | rfl
        | (rw [ih]; simp)

theorem length_swapPop {l : List (Nat × Int)} {e rest}
    (h : swapPop l = some (e, rest)) : rest.length + 1 = l.length := by
  match l with
  | [] => simp [swapPop] at h
  | [a] =>
    simp only [swapPop, Option.some.injEq, Prod.mk.injEq] at h
    simp [← h.2]
  | a :: b :: t =>
    simp only [swapPop, Option.some.injEq, Prod.mk.injEq] at h
    rw [← h.2]
    simp

theorem getCount_dequeue {q : TileQueue} {k : Nat} {q' : TileQueue}
    (h : dequeue q = some (k, q')) : getCount q' + 1 = getCount q := by
  unfold dequeue at h
  split at h
  · exact absurd h (by simp)
  · rename_i e rest heq
    simp only [Option.some.injEq, Prod.mk.injEq] at h
    rw [← h.2]
    simpa [getCount, length_siftDown] using length_swapPop heq

theorem dequeue_frame {q : TileQueue} {k : Nat} {q' : TileQueue}
    (h : dequeue q = some (k, q')) :
    q'.priorityFunction = q.priorityFunction ∧
    q'.listened = q.listened ∧
    q'.tilesLoading = q.tilesLoading ∧
    q'.maxTotalLoading = q.maxTotalLoading ∧
    q'.maxNewLoads = q.maxNewLoads ∧
    q'.callbackCount = q.callbackCount := by
  unfold dequeue at h
  split at h
  · exact absurd h (by simp)
  · simp only [Option.some.injEq, Prod.mk.injEq] at h
    rw [← h.2]
    exact ⟨rfl, rfl, rfl, rfl, rfl, rfl⟩

/-- `ol.TileQueue.prototype.loadMoreTiles_` (source lines 101-121), the
drain pass, written as a recursion on the loop: while
`tilesLoading_ < maxTotalLoading && newLoads < maxNewLoads &&
getCount() > 0`, dequeue the minimum element, recompute its priority, and
if it is not `DROP` and the tile is `IDLE`, listen for its change events,
start the load, and increment `tilesLoading_` and `newLoads`.

The loop terminates because every iteration dequeues one element, so
`fuel` (the number of remaining iterations, structurally decreasing) set
to the entry value of `getCount` is always enough: `loadMoreTilesGo_fuel`
below proves the result is the same for every `fuel ≥ getCount q`.  The
`none` branch of the inner match is the `EmptyQueueError` path of
`dequeue`, shown unreachable. -/
def loadMoreTilesGo (fuel : Nat) (pool : Pool) (q : TileQueue)
    (newLoads : Int) : TileQueue × Pool :=
  match fuel with
  | 0 => (q, pool)
  | Nat.succ fuel =>
    if q.tilesLoading < q.maxTotalLoading ∧ newLoads < q.maxNewLoads ∧
        0 < getCount q then
      match dequeue q with
      | none => (q, pool)
      | some (k, q') =>
        if q'.priorityFunction k ≠ DROP then
          if pool k = TileState.idle then
            loadMoreTilesGo fuel (setTileState pool k TileState.loading)
              { q' with listened := k :: q'.listened
                        tilesLoading := q'.tilesLoading + 1 }
              (newLoads + 1)
          else loadMoreTilesGo fuel pool q' newLoads
        else loadMoreTilesGo fuel pool q' newLoads
    else (q, pool)

/-- `ol.TileQueue.prototype.loadMoreTiles_` entered with `newLoads = 0`
and fuel covering the whole queue. -/
def loadMoreTilesPriv (pool : Pool) (q : TileQueue) : TileQueue × Pool :=
  loadMoreTilesGo (getCount q) pool q 0

/-- The fuel bound is exact: any fuel at least `getCount q` gives the
same drain-pass result, so `loadMoreTilesPriv` computes the limit of the
source's unbounded while-loop. -/
theorem loadMoreTilesGo_fuel (f1 : Nat) :
    ∀ (f2 : Nat) (pool : Pool) (q : TileQueue) (n : Int),
      getCount q ≤ f1 → getCount q ≤ f2 →
      loadMoreTilesGo f1 pool q n = loadMoreTilesGo f2 pool q n := by
  induction f1 with
  | zero =>
    intro f2 pool q n h1 h2
    have hq : getCount q = 0 := Nat.le_zero.mp h1
    cases f2 with
    | zero => rfl
    | succ f2 =>
      simp only [loadMoreTilesGo]
      rw [if_neg]
      omega
  | succ f1 ih =>
    intro f2 pool q n h1 h2
    cases f2 with
    | zero =>
      have hq : getCount q = 0 := Nat.le_zero.mp h2
      simp only [loadMoreTilesGo]
      rw [if_neg]
      omega
    | succ f2 =>
      simp only [loadMoreTilesGo]
      split
      · rename_i hguard
        cases hdq : dequeue q with
        | none => rfl
        | some p =>
          obtain ⟨k, q'⟩ := p
          have hlen : getCount q' + 1 = getCount q := getCount_dequeue hdq
          have hc1 : getCount q' ≤ f1 := by omega
          have hc2 : getCount q' ≤ f2 := by omega
          dsimp only
          by_cases hp : q'.priorityFunction k ≠ DROP
          · rw [if_pos hp, if_pos hp]
            by_cases hs : pool k = TileState.idle
            · rw [if_pos hs, if_pos hs]
              exact ih f2 _ _ _ (by simpa [getCount] using hc1)
                (by simpa [getCount] using hc2)
            · rw [if_neg hs, if_neg hs]
              exact ih f2 _ _ _ hc1 hc2
          · rw [if_neg hp, if_neg hp]
            exact ih f2 _ _ _ hc1 hc2
      · rfl

/-- `ol.TileQueue.prototype.enqueue` (source lines 66-70): insert via the
base-class `enqueue`, then kick off a drain pass. -/
def enqueue (pool : Pool) (q : TileQueue) (k : Nat) : TileQueue × Pool :=
  loadMoreTilesPriv pool (pqEnqueue q k)

/-- `ol.TileQueue.prototype.handleTileChange` (source lines 84-95): on a
change event from tile `k`, if its state is LOADED, ERROR or EMPTY,
unlisten, decrement `tilesLoading_` and invoke `tileChangeCallback_`;
in every case run another drain pass. -/
def handleTileChange (pool : Pool) (q : TileQueue) (k : Nat) :
    TileQueue × Pool :=
  let q1 :=
    if pool k = TileState.loaded ∨ pool k = TileState.error ∨
        pool k = TileState.empty then
      { q with listened := q.listened.erase k
               tilesLoading := q.tilesLoading - 1
               callbackCount := q.callbackCount + 1 }
    else q
  loadMoreTilesPriv pool q1

/-- `ol.TileQueue.prototype.loadMoreTiles` (source lines 129-133): set
the two loading thresholds and run a drain pass. -/
def loadMoreTiles (pool : Pool) (q : TileQueue) (mt mn : Int) :
    TileQueue × Pool :=
  loadMoreTilesPriv pool
    { q with maxTotalLoading := mt, maxNewLoads := mn }

/-- Modelled from the spec: delivery of one completion signal for tile
`k` (the asynchronous boundary; `ol.Tile`/`goog.events` are not in the
provided sources).  The tile's state becomes the terminal state `s`, and
if the queue holds a change listener for `k`, `handleTileChange` runs. -/
def completeTile (pool : Pool) (q : TileQueue) (k : Nat) (s : TileState) :
    TileQueue × Pool :=
  let pool1 := setTileState pool k s
  if k ∈ q.listened then handleTileChange pool1 q k else (q, pool1)

/-- Modelled from the spec: the event loop delivering completion signals
until no tile of `keys` is loading — each step completes (as LOADED) the
first key currently in the loading state.  `fuel` bounds the number of
delivered signals. -/
def runCompletions (fuel : Nat) (pool : Pool) (q : TileQueue)
    (keys : List Nat) : TileQueue × Pool :=
  match fuel with
  | 0 => (q, pool)
  | Nat.succ fuel =>
    match keys.find? (fun k => decide (pool k = TileState.loading)) with
    | none => (q, pool)
    | some k =>
      let s := completeTile pool q k TileState.loaded
      runCompletions fuel s.2 s.1 keys

/-- Number of tiles among `keys` currently in the LOADING state. -/
def countLoading (pool : Pool) (keys : List Nat) : Nat :=
  (keys.filter (fun k => decide (pool k = TileState.loading))).length

/-- A pool where every tile is IDLE. -/
def idlePool : Pool := fun _ => TileState.idle

/-- The priority function used in the concrete scenarios: tile `k` has
numeric priority `k` (never DROP). -/
def keyPriority : Nat → Priority := fun k => some (Int.ofNat k)

/-- The 20 tile keys of the test scenarios. -/
def keys20 : List Nat := List.range 20

/-- Enqueue each key in turn into one queue (each `enqueue` call drains). -/
def enqueueAll (keys : List Nat) (pool : Pool) (q : TileQueue) :
    TileQueue × Pool :=
  match keys with
  | [] => (q, pool)
  | k :: rest =>
    let s := enqueue pool q k
    enqueueAll rest s.2 s.1

/-- The scenario of the test `enqueue() Enqueues the tiles and loads
them`: a fresh queue configured with `loadMoreTiles(2, 2)`, then the 20
idle tiles enqueued one by one against a shared idle pool. -/
def c2Initial : TileQueue × Pool :=
  let s := loadMoreTiles idlePool (mkTileQueue keyPriority) 2 2
  enqueueAll keys20 s.2 s.1

/-- The same scenario after the event loop has delivered all completion
signals. -/
def c2Final : TileQueue × Pool :=
  runCompletions 64 c2Initial.2 c2Initial.1 keys20

/-- Enqueue each key into queue 1 and then queue 2, sharing one pool —
the scenario of the test `#loadMoreTiles() works when tile queues share
tiles`. -/
def enqueueBoth (keys : List Nat) (pool : Pool) (q1 q2 : TileQueue) :
    TileQueue × TileQueue × Pool :=
  match keys with
  | [] => (q1, q2, pool)
  | k :: rest =>
    let s1 := enqueue pool q1 k
    let s2 := enqueue s1.2 q2 k
    enqueueBoth rest s2.2 s1.1 s2.1

/-- Two fresh queues, both configured with `loadMoreTiles(2, 2)`, fed the
same 20 idle tiles sequentially. -/
def c6State : TileQueue × TileQueue × Pool :=
  let s1 := loadMoreTiles idlePool (mkTileQueue keyPriority) 2 2
  let s2 := loadMoreTiles s1.2 (mkTileQueue keyPriority) 2 2
  enqueueBoth keys20 s2.2 s1.1 s2.1

/-- A fresh queue (default budget 16/16, never reconfigured) fed the 20
idle tiles one by one. -/
def c9State : TileQueue × Pool :=
  enqueueAll keys20 idlePool (mkTileQueue keyPriority)

/-- The two budget bounds of the drain-pass loop, proved together by
induction on the remaining iterations: if the in-flight count is within
the ceiling and at most `maxNewLoads - n` further loads may start, both
stay true at exit. -/
theorem loadMoreTilesGo_budget (fuel : Nat) :
    ∀ (pool : Pool) (q : TileQueue) (n : Int),
      q.tilesLoading ≤ q.maxTotalLoading → n ≤ q.maxNewLoads →
      (loadMoreTilesGo fuel pool q n).1.tilesLoading ≤ q.maxTotalLoading ∧
      (loadMoreTilesGo fuel pool q n).1.tilesLoading ≤
        q.tilesLoading + (q.maxNewLoads - n) := by
  induction fuel with
  | zero =>
    intro pool q n h1 h2
    exact ⟨h1, by show q.tilesLoading ≤ _; omega⟩
  | succ fuel ih =>
    intro pool q n h1 h2
    simp only [loadMoreTilesGo]
    split
    · rename_i hguard
      obtain ⟨hg1, hg2, hg3⟩ := hguard
      cases hdq : dequeue q with
      | none => exact ⟨h1, by show q.tilesLoading ≤ _; omega⟩
      | some p =>
        obtain ⟨k, q'⟩ := p
        obtain ⟨hpf, hlis, htl, hmax, hmn, hcb⟩ := dequeue_frame hdq
        dsimp only
        by_cases hp : q'.priorityFunction k ≠ DROP
        · rw [if_pos hp]
          by_cases hs : pool k = TileState.idle
          · rw [if_pos hs]
            obtain ⟨hr1, hr2⟩ := ih (setTileState pool k TileState.loading)
              { q' with listened := k :: q'.listened
                        tilesLoading := q'.tilesLoading + 1 } (n + 1)
              (by show q'.tilesLoading + 1 ≤ q'.maxTotalLoading; omega)
              (by show n + 1 ≤ q'.maxNewLoads; omega)
            have hr1' : (loadMoreTilesGo fuel
                (setTileState pool k TileState.loading)
                { q' with listened := k :: q'.listened
                          tilesLoading := q'.tilesLoading + 1 }
                (n + 1)).1.tilesLoading ≤ q'.maxTotalLoading := hr1
            have hr2' : (loadMoreTilesGo fuel
                (setTileState pool k TileState.loading)
                { q' with listened := k :: q'.listened
                          tilesLoading := q'.tilesLoading + 1 }
                (n + 1)).1.tilesLoading ≤
                (q'.tilesLoading + 1) + (q'.maxNewLoads - (n + 1)) := hr2
            refine ⟨?_, ?_⟩ <;> omega
          · rw [if_neg hs]
            obtain ⟨hr1, hr2⟩ := ih pool q' n (by omega) (by omega)
            refine ⟨?_, ?_⟩ <;> omega
        · rw [if_neg hp]
          obtain ⟨hr1, hr2⟩ := ih pool q' n (by omega) (by omega)
          refine ⟨?_, ?_⟩ <;> omega
    · exact ⟨h1, by show q.tilesLoading ≤ _; omega⟩

/-- Claim C1: for every drain pass (`loadMoreTiles_`), assuming
`tilesLoading_ ≤ maxTotalLoading_` at entry (and a non-negative
per-pass budget, as the spec types it `uint`), after the pass
`tilesLoading_` never exceeds `maxTotalLoading_`, and the number of new
loads the pass started (the growth of `tilesLoading_`, which only the
pass's own increments change) is at most `maxNewLoads_`. -/
theorem tileQueue_drainPass_budget (pool : Pool) (q : TileQueue)
    (h1 : q.tilesLoading ≤ q.maxTotalLoading) (h2 : 0 ≤ q.maxNewLoads) :
    (loadMoreTilesPriv pool q).1.tilesLoading ≤ q.maxTotalLoading ∧
    (loadMoreTilesPriv pool q).1.tilesLoading - q.tilesLoading ≤
      q.maxNewLoads := by
  obtain ⟨ha, hb⟩ := loadMoreTilesGo_budget (getCount q) pool q 0 h1 h2
  simp only [loadMoreTilesPriv]
  exact ⟨ha, by omega⟩

/-- The queue used to witness claim C1: three queued tiles, budget 2/1. -/
def qC1 : TileQueue :=
  { heap := [(0, 0), (1, 1), (2, 2)]
    queuedKeys := [0, 1, 2]
    priorityFunction := keyPriority
    listened := []
    tilesLoading := 0
    maxTotalLoading := 2
    maxNewLoads := 1
    callbackCount := 0 }

theorem tileQueue_drainPass_budget_witness :
    qC1.tilesLoading ≤ qC1.maxTotalLoading ∧ 0 ≤ qC1.maxNewLoads ∧
    ((loadMoreTilesPriv idlePool qC1).1.tilesLoading ≤
        qC1.maxTotalLoading ∧
      (loadMoreTilesPriv idlePool qC1).1.tilesLoading - qC1.tilesLoading ≤
        qC1.maxNewLoads) :=
  ⟨by decide, by decide,
    tileQueue_drainPass_budget idlePool qC1 (by decide) (by decide)⟩

/-- Claim C3: on a completion signal for tile `k` whose state has become
LOADED, ERROR or EMPTY (the three handled identically), the handler
unregisters the change listener for `k`, decrements `tilesLoading_` by
exactly one, invokes the caller-supplied callback once, and then runs
another drain pass — and does nothing else. -/
theorem tileQueue_handleTileChange_terminal (pool : Pool) (q : TileQueue)
    (k : Nat)
    (h : pool k = TileState.loaded ∨ pool k = TileState.error ∨
      pool k = TileState.empty) :
    handleTileChange pool q k =
      loadMoreTilesPriv pool
        { q with listened := q.listened.erase k
                 tilesLoading := q.tilesLoading - 1
                 callbackCount := q.callbackCount + 1 } := by
  simp only [handleTileChange, if_pos h]

/-- A pool where every tile has errored, for the C3 witness: ERROR is
bookkept exactly like LOADED. -/
def errorPool : Pool := fun _ => TileState.error

theorem tileQueue_handleTileChange_terminal_witness :
    (errorPool 3 = TileState.loaded ∨ errorPool 3 = TileState.error ∨
      errorPool 3 = TileState.empty) ∧
    handleTileChange errorPool qC1 3 =
      loadMoreTilesPriv errorPool
        { qC1 with listened := qC1.listened.erase 3
                   tilesLoading := qC1.tilesLoading - 1
                   callbackCount := qC1.callbackCount + 1 } :=
  ⟨Or.inr (Or.inl rfl),
    tileQueue_handleTileChange_terminal errorPool qC1 3
      (Or.inr (Or.inl rfl))⟩

/-- Claim C7: `loadMoreTiles(maxTotalLoading, maxNewLoads)` sets the two
throttle fields to exactly the supplied values, changes nothing else, and
then runs one drain pass; it is a plain state-total function, callable in
any state (any `pool`, any `q`, loads outstanding or not). -/
theorem tileQueue_loadMoreTiles_configures (pool : Pool) (q : TileQueue)
    (mt mn : Int) :
    loadMoreTiles pool q mt mn =
      loadMoreTilesPriv pool
        { heap := q.heap
          queuedKeys := q.queuedKeys
          priorityFunction := q.priorityFunction
          listened := q.listened
          tilesLoading := q.tilesLoading
          maxTotalLoading := mt
          maxNewLoads := mn
          callbackCount := q.callbackCount } := rfl

/-- Claim C10: a change event for a listened tile whose state is not
terminal (not LOADED, ERROR or EMPTY) leaves `tilesLoading_`, the
listener registration and the callback count untouched — the handler is
exactly a drain-pass re-trigger on the unchanged queue. -/
theorem tileQueue_handleTileChange_nonterminal (pool : Pool)
    (q : TileQueue) (k : Nat)
    (h : ¬(pool k = TileState.loaded ∨ pool k = TileState.error ∨
      pool k = TileState.empty)) :
    handleTileChange pool q k = loadMoreTilesPriv pool q := by
  simp only [handleTileChange, if_neg h]

/-- A pool where every tile is LOADING, for the C10 witness. -/
def loadingPool : Pool := fun _ => TileState.loading

theorem tileQueue_handleTileChange_nonterminal_witness :
    ¬(loadingPool 3 = TileState.loaded ∨
        loadingPool 3 = TileState.error ∨
        loadingPool 3 = TileState.empty) ∧
    handleTileChange loadingPool qC1 3 = loadMoreTilesPriv loadingPool qC1 :=
  ⟨by decide,
    tileQueue_handleTileChange_nonterminal loadingPool qC1 3 (by decide)⟩

/-- Claim C4: one drain-pass iteration under the loop guard re-applies
the priority function to the freshly dequeued element; when the
recomputed priority is `DROP`, the pass simply continues on the remaining
queue with the same pool, the same in-flight count and the same per-pass
counter — no load started, no listener registered. -/
theorem tileQueue_dequeue_drop_discard (fuel : Nat) (pool : Pool)
    (q : TileQueue) (n : Int) (k : Nat) (q' : TileQueue)
    (hg : q.tilesLoading < q.maxTotalLoading ∧ n < q.maxNewLoads ∧
      0 < getCount q)
    (hdq : dequeue q = some (k, q'))
    (hp : q'.priorityFunction k = DROP) :
    loadMoreTilesGo (fuel + 1) pool q n = loadMoreTilesGo fuel pool q' n := by
  simp only [loadMoreTilesGo, if_pos hg, hdq]
  simp [hp]

/-- Witness queue for claim C4: tile 5 was admitted with the numeric
priority 3 still stored in the heap, but the current priority function
now answers `DROP` for every element. -/
def qC4 : TileQueue :=
  { heap := [(5, 3)]
    queuedKeys := [5]
    priorityFunction := fun _ => DROP
    listened := []
    tilesLoading := 0
    maxTotalLoading := 16
    maxNewLoads := 16
    callbackCount := 0 }

/-- `qC4` after its single element is dequeued. -/
def qC4' : TileQueue :=
  { heap := []
    queuedKeys := []
    priorityFunction := fun _ => DROP
    listened := []
    tilesLoading := 0
    maxTotalLoading := 16
    maxNewLoads := 16
    callbackCount := 0 }

theorem tileQueue_dequeue_drop_discard_witness :
    dequeue qC4 = some (5, qC4') ∧
    qC4'.priorityFunction 5 = DROP ∧
    loadMoreTilesGo 1 idlePool qC4 0 = loadMoreTilesGo 0 idlePool qC4' 0 :=
  ⟨rfl, rfl,
    tileQueue_dequeue_drop_discard 0 idlePool qC4 0 5 qC4'
      ⟨by decide, by decide, by decide⟩ rfl rfl⟩

/-- Claim C5: one drain-pass iteration under the loop guard that
dequeues an element whose priority is not `DROP` but whose tile is not
IDLE (already loading or terminal) discards it and continues on the
remaining queue with the same pool, the same in-flight count and the
same per-pass counter — in particular a tile already LOADING never makes
`tilesLoading_` grow a second time. -/
theorem tileQueue_dequeue_nonIdle_discard (fuel : Nat) (pool : Pool)
    (q : TileQueue) (n : Int) (k : Nat) (q' : TileQueue)
    (hg : q.tilesLoading < q.maxTotalLoading ∧ n < q.maxNewLoads ∧
      0 < getCount q)
    (hdq : dequeue q = some (k, q'))
    (hp : q'.priorityFunction k ≠ DROP)
    (hs : pool k ≠ TileState.idle) :
    loadMoreTilesGo (fuel + 1) pool q n = loadMoreTilesGo fuel pool q' n := by
  simp only [loadMoreTilesGo, if_pos hg, hdq]
  simp [hp, hs]

/-- Witness queue for claim C5: tile 7 is queued while its load (already
counted once, `tilesLoading = 1`) is still outstanding. -/
def qC5 : TileQueue :=
  { heap := [(7, 7)]
    queuedKeys := [7]
    priorityFunction := keyPriority
    listened := [7]
    tilesLoading := 1
    maxTotalLoading := 2
    maxNewLoads := 2
    callbackCount := 0 }

/-- `qC5` after its single element is dequeued. -/
def qC5' : TileQueue :=
  { heap := []
    queuedKeys := []
    priorityFunction := keyPriority
    listened := [7]
    tilesLoading := 1
    maxTotalLoading := 2
    maxNewLoads := 2
    callbackCount := 0 }

theorem tileQueue_dequeue_nonIdle_discard_witness :
    dequeue qC5 = some (7, qC5') ∧
    qC5'.priorityFunction 7 ≠ DROP ∧
    loadingPool 7 ≠ TileState.idle ∧
    loadMoreTilesGo 1 loadingPool qC5 0 = loadMoreTilesGo 0 loadingPool qC5' 0 :=
  ⟨rfl, by decide, by decide,
    tileQueue_dequeue_nonIdle_discard 0 loadingPool qC5 0 7 qC5'
      ⟨by decide, by decide, by decide⟩ rfl (by decide) (by decide)⟩

theorem swapPop_isSome (l : List (Nat × Int)) (h : 0 < l.length) :
    (swapPop l).isSome = true := by
  match l with
  | [] => simp at h
  | [a] => rfl
  | a :: b :: t => rfl

/-- Claim C8: the `EmptyQueueError` branch (`dequeue` answering `none`)
is unreachable from scheduler-internal code: `dequeue` only answers
`none` on an empty heap, and the drain pass calls `dequeue` only under
its `getCount() > 0` guard — on an empty queue the pass exits at once
without dequeuing. -/
theorem tileQueue_no_empty_dequeue (fuel : Nat) (pool : Pool)
    (q : TileQueue) (n : Int) :
    (0 < getCount q → (dequeue q).isSome = true) ∧
    (getCount q = 0 → loadMoreTilesGo fuel pool q n = (q, pool)) := by
  constructor
  · intro h
    unfold dequeue
    cases hs : swapPop q.heap with
    | none =>
      have hh := swapPop_isSome q.heap h
      rw [hs] at hh
      simp at hh
    | some p =>
      obtain ⟨e, rest⟩ := p
      rfl
  · intro h
    cases fuel with
    | zero => rfl
    | succ fuel =>
      simp only [loadMoreTilesGo]
      rw [if_neg (by omega)]

/-- Witness queue for claim C8: a single queued element. -/
def qC8 : TileQueue :=
  { heap := [(1, 1)]
    queuedKeys := [1]
    priorityFunction := keyPriority
    listened := []
    tilesLoading := 0
    maxTotalLoading := 16
    maxNewLoads := 16
    callbackCount := 0 }

theorem tileQueue_no_empty_dequeue_witness :
    0 < getCount qC8 ∧ (dequeue qC8).isSome = true :=
  ⟨by decide, (tileQueue_no_empty_dequeue 0 idlePool qC8 0).1 (by decide)⟩

set_option maxRecDepth 1000000 in
/-- Claim C2: with the budget configured to `loadMoreTiles(2, 2)`,
after enqueueing the 20 idle tiles one by one exactly
`min(2, 2) = 2` tiles are LOADING and `20 - 2 = 18` remain queued;
after the event loop delivers all completion signals every tile is
LOADED and both the queued count and the in-flight count are 0. -/
theorem tileQueue_enqueue_twenty_budget :
    getCount c2Initial.1 = 18 ∧
    countLoading c2Initial.2 keys20 = 2 ∧
    getTilesLoading c2Initial.1 = 2 ∧
    getCount c2Final.1 = 0 ∧
    getTilesLoading c2Final.1 = 0 ∧
    (keys20.filter
      (fun k => decide (c2Final.2 k = TileState.loaded))).length = 20 :=
  ⟨by decide, by decide, by decide, by decide, by decide, by decide⟩

set_option maxRecDepth 1000000 in
/-- Claim C6: two scheduler instances, each configured with
`loadMoreTiles(2, 2)` and fed the same pool of 20 idle tiles
sequentially (each tile enqueued into instance 1 then instance 2),
enforce their budgets independently: after initial admission the first
instance has `20 - 2 = 18` tiles queued and the second
`20 - 2*2 = 16`, each with 2 loads in flight (the second instance
dequeues and discards, without counting, the 2 tiles the first already
set LOADING); 4 tiles of the shared pool are LOADING in total. -/
theorem tileQueue_two_instances_independent :
    getCount c6State.1 = 18 ∧
    getCount c6State.2.1 = 16 ∧
    getTilesLoading c6State.1 = 2 ∧
    getTilesLoading c6State.2.1 = 2 ∧
    countLoading c6State.2.2 keys20 = 4 :=
  ⟨by decide, by decide, by decide, by decide, by decide⟩

set_option maxRecDepth 1000000 in
/-- Claim C9: a freshly constructed scheduler has `tilesLoading_ = 0`
and the default budget `maxTotalLoading_ = 16`, `maxNewLoads_ = 16`;
consequently, without any `loadMoreTiles` call, enqueueing the 20 idle
tiles starts exactly 16 loads and leaves 4 tiles queued. -/
theorem tileQueue_defaults :
    (∀ pfn : Nat → Priority,
      (mkTileQueue pfn).tilesLoading = 0 ∧
      (mkTileQueue pfn).maxTotalLoading = 16 ∧
      (mkTileQueue pfn).maxNewLoads = 16) ∧
    getTilesLoading c9State.1 = 16 ∧
    getCount c9State.1 = 4 ∧
    countLoading c9State.2 keys20 = 16 :=
  ⟨fun _ => ⟨rfl, rfl, rfl⟩, by decide, by decide, by decide⟩
